import Mathlib

/-!
Verification of the estimation-and-control loop of `control_node.py`
(class `control`).  The per-tick arithmetic of the loop body is embedded
shallowly: pure float computations become exact rational (`ℚ`) or real
(`ℝ`) functions, Python truthiness becomes explicit `Option`/zero tests,
and the mutable loop state becomes explicit state-passing step functions.
-/

/- ---------------------------------------------------------------------
   Python primitives used by the source.
   --------------------------------------------------------------------- -/

/-- Python `int(x)`: truncation toward zero (floor for nonnegative,
ceiling for negative values). -/
def pyInt (q : ℚ) : ℤ :=
  if 0 ≤ q then ⌊q⌋ else ⌈q⌉

/-- Python `abs` applied to a `bool` (as in the source text `abs(dt<3)`):
`abs(True) = 1`, `abs(False) = 0`. -/
def pyAbsOfBool (b : Bool) : ℤ :=
  if b then 1 else 0

/-- Python truthiness of an optional float: `None` is falsy and the float
`0.0` is falsy; every other value is truthy. -/
def pyTruthyOpt (v : Option ℚ) : Bool :=
  match v with
  | none => false
  | some q => decide (q ≠ 0)

lemma pyInt_intCast (n : ℤ) : pyInt ((n : ℚ)) = n := by
  unfold pyInt
  split
  · exact Int.floor_intCast n
  · exact Int.ceil_intCast n

/- ---------------------------------------------------------------------
   `control.truncate` (control_node.py lines 105-107):
   `return (int(data*(10**dp)))/(10**dp)` with default `dp = 2`.
   --------------------------------------------------------------------- -/

/-- `control.truncate(data, dp)` from control_node.py line 107. -/
def truncate (data : ℚ) (dp : ℕ) : ℚ :=
  ((pyInt (data * 10 ^ dp) : ℚ)) / 10 ^ dp

/- ---------------------------------------------------------------------
   `control.value_limit` (control_node.py lines 96-103).
   --------------------------------------------------------------------- -/

/-- `control.value_limit(output, limit)` from control_node.py lines 96-103:
if `abs(output) >= limit` the output is replaced by `±limit` keeping the
sign of `output`. -/
def value_limit (output limit : ℚ) : ℚ :=
  if |output| ≥ limit then (if output < 0 then -limit else limit) else output

/-- Roll clamp from control_node.py line 268:
`next_roll if abs(next_roll) <= 100 else (-1 if next_roll < 0 else 1)*100`. -/
def roll_clamped (next_roll : ℚ) : ℚ :=
  if |next_roll| ≤ 100 then next_roll else (if next_roll < 0 then -1 else 1) * 100

/-- Pitch clamp from control_node.py line 269 (limit 150). -/
def pitch_clamped (next_pitch : ℚ) : ℚ :=
  if |next_pitch| ≤ 150 then next_pitch else (if next_pitch < 0 then -1 else 1) * 150

/-- HOLD-phase published throttle, control_node.py lines 205-207: the PID
output is clamped to `±150` and only then the hover feed-forward term
`cancel_gravity_value / (cos(roll)*cos(pitch))` is added.  The two cosine
factors are passed in as the values computed by numpy on line 207. -/
def hold_throttle (next_throttle cancel_gravity_value cosRoll cosPitch : ℚ) : ℚ :=
  value_limit next_throttle 150 + cancel_gravity_value / (cosRoll * cosPitch)

lemma abs_value_limit (o l : ℚ) (hl : 0 ≤ l) : |value_limit o l| ≤ l := by
  unfold value_limit
  split
  · split
    · rw [abs_neg, abs_of_nonneg hl]
    · rw [abs_of_nonneg hl]
  · exact le_of_not_le (by assumption)

lemma abs_roll_clamped (o : ℚ) : |roll_clamped o| ≤ 100 := by
  unfold roll_clamped
  split
  · assumption
  · split <;> norm_num

lemma abs_pitch_clamped (o : ℚ) : |pitch_clamped o| ≤ 150 := by
  unfold pitch_clamped
  split
  · assumption
  · split <;> norm_num

/- ---------------------------------------------------------------------
   Stale-timestamp guards on the Kalman matrices.

   control_node.py line 180: `tof_filter.F[0,1] = dt if abs(dt<3) else 0`.
   In Python `abs(dt<3)` is `abs` of the *boolean* `dt < 3`, so the
   condition is truthy exactly when `dt < 3` (a signed comparison), not
   when `|dt| < 3`.  The same spelling guards lines 181, 244-247.
   Line 182 (`tof_filter.B[1] = dt`) carries no guard at all.
   --------------------------------------------------------------------- -/

/-- Truthiness of the source guard `abs(dt < 3)`. -/
def stale_gate (dt : ℚ) : Bool :=
  decide (pyAbsOfBool (decide (dt < 3)) ≠ 0)

/-- `tof_filter.F[0,1]` velocity-coupling entry, control_node.py line 180. -/
def tof_F01 (dt : ℚ) : ℚ :=
  if stale_gate dt then dt else 0

/-- `tof_filter.B[0]` control-matrix entry, control_node.py line 181:
`0.5*(dt**2) if abs(dt<3) else 0`. -/
def tof_B0 (dt : ℚ) : ℚ :=
  if stale_gate dt then 0.5 * dt ^ 2 else 0

/-- `tof_filter.B[1]` control-matrix entry, control_node.py line 182:
assigned `dt` with no guard. -/
def tof_B1 (dt : ℚ) : ℚ := dt

/-- `KFXY.F[0,2]` coupling entry, control_node.py line 244. -/
def KFXY_F02 (dt_OF : ℚ) : ℚ :=
  if stale_gate dt_OF then dt_OF else 0

/-- `KFXY.F[1,3]` coupling entry, control_node.py line 245. -/
def KFXY_F13 (dt_OF : ℚ) : ℚ :=
  if stale_gate dt_OF then dt_OF else 0

/-- `KFXY.B[2,2]` control-matrix entry, control_node.py line 246. -/
def KFXY_B22 (dt_IMU : ℚ) : ℚ :=
  if stale_gate dt_IMU then dt_IMU else 0

/-- `KFXY.B[3,3]` control-matrix entry, control_node.py line 247. -/
def KFXY_B33 (dt_IMU : ℚ) : ℚ :=
  if stale_gate dt_IMU then dt_IMU else 0

/-- The predict-step term as the claim describes it: zeroed exactly when
`|dt| ≥ 3` and applied with value `dt` otherwise. -/
def dt_term_claimed (dt : ℚ) : ℚ :=
  if |dt| < 3 then dt else 0

lemma stale_gate_iff (dt : ℚ) : stale_gate dt = true ↔ dt < 3 := by
  unfold stale_gate pyAbsOfBool
  by_cases h : dt < 3 <;> simp [h]

lemma tof_F01_eq (dt : ℚ) : tof_F01 dt = if dt < 3 then dt else 0 := by
  unfold tof_F01
  by_cases h : dt < 3
  · rw [if_pos ((stale_gate_iff dt).mpr h), if_pos h]
  · rw [if_neg (fun hh => h ((stale_gate_iff dt).mp hh)), if_neg h]

lemma KFXY_F02_eq (dt : ℚ) : KFXY_F02 dt = if dt < 3 then dt else 0 := by
  unfold KFXY_F02
  by_cases h : dt < 3
  · rw [if_pos ((stale_gate_iff dt).mpr h), if_pos h]
  · rw [if_neg (fun hh => h ((stale_gate_iff dt).mp hh)), if_neg h]

lemma KFXY_B22_eq (dt : ℚ) : KFXY_B22 dt = if dt < 3 then dt else 0 := by
  unfold KFXY_B22
  by_cases h : dt < 3
  · rw [if_pos ((stale_gate_iff dt).mpr h), if_pos h]
  · rw [if_neg (fun hh => h ((stale_gate_iff dt).mp hh)), if_neg h]

/- ---------------------------------------------------------------------
   Dynamic measurement noise of the horizontal filter
   (control_node.py lines 242-243):
   `KFXY.R[0,0] = (0.01+(velocity/100))`, same for `R[1,1]`.
   --------------------------------------------------------------------- -/

/-- `KFXY.R[0,0]` as set each non-takeoff tick, control_node.py line 242. -/
def KFXY_R00 (velocity : ℚ) : ℚ := 0.01 + velocity / 100

/-- `KFXY.R[1,1]` as set each non-takeoff tick, control_node.py line 243. -/
def KFXY_R11 (velocity : ℚ) : ℚ := 0.01 + velocity / 100

/-- The measurement noise as the claim states it:
`0.01 + |vertical_velocity| / 100`. -/
def KFXY_R_claimed (velocity : ℚ) : ℚ := 0.01 + |velocity| / 100

/- ---------------------------------------------------------------------
   Theorems for claims C9, C2, C6.
   --------------------------------------------------------------------- -/

/-- C9: the truncation function is idempotent — `truncate2 (truncate2 x) =
truncate2 x` for every rational `x` — and truncates toward zero, so
`truncate2 (-1.239) = -1.23` (control_node.py lines 105-107, with the
default `dp = 2`). -/
theorem C9_truncate_idempotent_toward_zero :
    (∀ x : ℚ, truncate (truncate x 2) 2 = truncate x 2) ∧
    truncate (-1.239) 2 = -1.23 := by
  constructor
  · intro x
    unfold truncate
    have h : ((pyInt (x * 10 ^ 2) : ℚ)) / 10 ^ 2 * 10 ^ 2 = ((pyInt (x * 10 ^ 2) : ℚ)) := by
      field_simp
    rw [h, pyInt_intCast]
  · have h1 : ¬ (0 : ℚ) ≤ -1.239 * 10 ^ 2 := by norm_num
    have h2 : ⌈(-1.239 * 10 ^ 2 : ℚ)⌉ = -123 := by
      rw [Int.ceil_eq_iff]
      norm_num
    rw [truncate, pyInt, if_neg h1, h2]
    norm_num

/-- C2 (code bug): the guard written `abs(dt<3)` in control_node.py lines
180-181 and 244-247 applies `abs` to the boolean `dt < 3`, so the
coupling/control terms are zeroed exactly when `dt ≥ 3` (signed), not when
`|dt| ≥ 3` as the claim (and the evident intent of writing `abs`) states:
`dt = 2.999` applies the coupling and `dt = 3.001` zeroes it as claimed,
but `dt = -3.001` is applied instead of zeroed; additionally
`tof_filter.B[1]` (line 182) is assigned `dt` with no guard at all, so it
is not zeroed even at `dt = 3.001`. -/
theorem C2_stale_dt_guard_behavior :
    tof_F01 (2999 / 1000) = 2999 / 1000 ∧
    tof_F01 (3001 / 1000) = 0 ∧
    tof_F01 (-3001 / 1000) = -3001 / 1000 ∧
    tof_F01 (-3001 / 1000) ≠ dt_term_claimed (-3001 / 1000) ∧
    tof_B1 (3001 / 1000) = 3001 / 1000 ∧
    tof_B1 (3001 / 1000) ≠ dt_term_claimed (3001 / 1000) ∧
    KFXY_F02 (-3001 / 1000) = -3001 / 1000 ∧
    KFXY_B22 (-3001 / 1000) = -3001 / 1000 := by
  simp only [tof_F01_eq, KFXY_F02_eq, KFXY_B22_eq]
  norm_num [dt_term_claimed, tof_B1]
  have habs : ¬ (|(3001 : ℚ) / 1000| < 3) := by
    rw [abs_of_nonneg (by norm_num : (0 : ℚ) ≤ 3001 / 1000)]
    norm_num
  simp only [if_neg habs]
  norm_num

/-- C6 (counterexample): at vertical velocity `-1` the code sets the
measurement-noise entry to `0.01 + (-1)/100 = 0`, which differs from the
claimed `0.01 + |-1|/100 = 0.02`, is smaller than `0.01`, and differs
from the value at velocity `+1` — refuting the claimed absolute value,
the claimed floor and the claimed sign-symmetry at once. -/
theorem C6_negative_velocity_noise :
    KFXY_R00 (-1) ≠ KFXY_R_claimed (-1) ∧
    KFXY_R00 (-1) < 0.01 ∧
    KFXY_R00 (-1) ≠ KFXY_R00 1 := by
  norm_num [KFXY_R00, KFXY_R_claimed]

/-- C6 (amended): both diagonal measurement-noise entries are set to the
*signed* expression `0.01 + vertical_velocity/100` (no absolute value), so
the two entries always agree, the claimed formula holds exactly for
nonnegative vertical velocity, and for descending flight (negative
velocity) the noise drops below `0.01`. -/
theorem C6_measurement_noise_formula (v : ℚ) :
    KFXY_R00 v = KFXY_R11 v ∧
    KFXY_R00 v = 1 / 100 + v / 100 ∧
    (0 ≤ v → KFXY_R00 v = KFXY_R_claimed v) ∧
    (v < 0 → KFXY_R00 v < 0.01) := by
  refine ⟨rfl, by norm_num [KFXY_R00], ?_, ?_⟩
  · intro h
    unfold KFXY_R00 KFXY_R_claimed
    rw [abs_of_nonneg h]
  · intro h
    unfold KFXY_R00
    have hv : v / 100 < 0 := div_neg_of_neg_of_pos h (by norm_num)
    norm_num
    linarith

/-- Witness for C6 (amended) at vertical velocity `2`. -/
theorem C6_measurement_noise_formula_witness :
    KFXY_R00 2 = KFXY_R_claimed 2 := by
  exact (C6_measurement_noise_formula 2).2.2.1 (by norm_num)

/- ---------------------------------------------------------------------
   Hold-reset fragment (control_node.py lines 165-173) and the numeric
   truthiness guards (lines 165, 176, 218).

   `if postition_hold and altitude_sensor:` re-latches
   `prev_altitude_sensor = init_altitude = altitude_sensor`, clears
   `postition_hold`, hard-sets `tof_filter.x = [[init_altitude],[0]]` and
   `continue`s to the next tick.  The horizontal origin `init_x`/`init_y`
   (lines 123-124) and the horizontal filter state `KFXY.x` are not
   touched anywhere in this block (nor is `init_x`/`init_y` ever
   reassigned elsewhere in the loop).
   --------------------------------------------------------------------- -/

/-- The loop-local state touched (or conspicuously not touched) by the
hold-reset block.  `tof_x` is the column `tof_filter.x`; `KFXY_x0` and
`KFXY_x1` are the horizontal position estimates `KFXY.x[0,0]`,
`KFXY.x[1,0]`. -/
structure VertState where
  prev_altitude_sensor : Option ℚ
  init_altitude : Option ℚ
  postition_hold : Bool
  tof_x : ℚ × ℚ
  init_x : ℚ
  init_y : ℚ
  KFXY_x0 : ℚ
  KFXY_x1 : ℚ

/-- Guard of control_node.py line 176 (`if init_altitude:`): the whole
vertical predict/control branch runs only when `init_altitude` is truthy. -/
def verticalGuard (init_altitude : Option ℚ) : Bool :=
  pyTruthyOpt init_altitude

/-- The hold-reset block, control_node.py lines 165-173. -/
def holdResetStep (s : VertState) (altitude_sensor : Option ℚ) : VertState :=
  if s.postition_hold && pyTruthyOpt altitude_sensor then
    { s with prev_altitude_sensor := altitude_sensor,
             init_altitude := altitude_sensor,
             postition_hold := false,
             tof_x := (altitude_sensor.getD 0, 0) }
  else s

lemma pyTruthyOpt_some_ne {r : ℚ} (hr : r ≠ 0) : pyTruthyOpt (some r) = true := by
  simp [pyTruthyOpt, hr]

lemma pyTruthyOpt_some_zero : pyTruthyOpt (some 0) = false := by
  simp [pyTruthyOpt]

/-- Concrete loop state used to exercise the hold-reset block: hold was
just requested, the vertical filter currently estimates an altitude of
`2`, and the horizontal filter currently estimates position `(5, 4)`
while the latched origin is still `(0, 0)`. -/
def holdExample : VertState :=
  { prev_altitude_sensor := none,
    init_altitude := some 0,
    postition_hold := true,
    tof_x := (2, 0),
    init_x := 0,
    init_y := 0,
    KFXY_x0 := 5,
    KFXY_x1 := 4 }

/-- C3 (counterexample): on a hold-reset with raw range reading `3/2`,
current vertical estimate `2` and current horizontal estimate `(5, 4)`,
the horizontal reference origin `init_x` is *not* re-latched to the
current horizontal estimate (it stays `0 ≠ 5`), and the vertical
reference is latched to the raw reading `3/2`, not to the current
vertical estimate `2` — refuting the claimed re-latch "to current
estimates". -/
theorem C3_horizontal_origin_not_relatched :
    (holdResetStep holdExample (some (3 / 2))).init_x ≠ holdExample.KFXY_x0 ∧
    (holdResetStep holdExample (some (3 / 2))).init_altitude ≠ some holdExample.tof_x.1 := by
  have hg : (holdExample.postition_hold && pyTruthyOpt (some (3 / 2))) = true := by
    rw [pyTruthyOpt_some_ne (by norm_num : (3 / 2 : ℚ) ≠ 0)]
    rfl
  unfold holdResetStep
  rw [hg]
  refine ⟨by norm_num [holdExample], ?_⟩
  simp only [holdExample, if_true]
  norm_num

/-- C3 (amended): when the external enable-hold signal is pending and a
truthy (nonzero) range sample `r` exists, the block hard-sets the
vertical filter state to `[r, 0]`, re-latches the vertical reference and
`prev_altitude_sensor` to the *raw* reading `r`, and clears the pending
flag so the next tick resumes normal HOLD processing; the horizontal
reference origin (`init_x`, `init_y`) and the horizontal filter state are
left untouched (they are never re-latched anywhere in the loop). -/
theorem C3_hold_reset_relatch (s : VertState) (r : ℚ)
    (hhold : s.postition_hold = true) (hr : r ≠ 0) :
    (holdResetStep s (some r)).tof_x = (r, 0) ∧
    (holdResetStep s (some r)).init_altitude = some r ∧
    (holdResetStep s (some r)).prev_altitude_sensor = some r ∧
    (holdResetStep s (some r)).postition_hold = false ∧
    (holdResetStep s (some r)).init_x = s.init_x ∧
    (holdResetStep s (some r)).init_y = s.init_y ∧
    (holdResetStep s (some r)).KFXY_x0 = s.KFXY_x0 ∧
    (holdResetStep s (some r)).KFXY_x1 = s.KFXY_x1 := by
  have hg : (s.postition_hold && pyTruthyOpt (some r)) = true := by
    rw [hhold, pyTruthyOpt_some_ne hr]
    rfl
  unfold holdResetStep
  rw [hg]
  simp

/-- Witness for C3 (amended) at the concrete state `holdExample` and raw
reading `3/2`. -/
theorem C3_hold_reset_relatch_witness :
    (holdResetStep holdExample (some (3 / 2))).tof_x = (3 / 2, 0) ∧
    (holdResetStep holdExample (some (3 / 2))).init_altitude = some (3 / 2) ∧
    (holdResetStep holdExample (some (3 / 2))).prev_altitude_sensor = some (3 / 2) ∧
    (holdResetStep holdExample (some (3 / 2))).postition_hold = false ∧
    (holdResetStep holdExample (some (3 / 2))).init_x = holdExample.init_x ∧
    (holdResetStep holdExample (some (3 / 2))).init_y = holdExample.init_y ∧
    (holdResetStep holdExample (some (3 / 2))).KFXY_x0 = holdExample.KFXY_x0 ∧
    (holdResetStep holdExample (some (3 / 2))).KFXY_x1 = holdExample.KFXY_x1 := by
  exact C3_hold_reset_relatch holdExample (3 / 2) rfl (by norm_num)

/-- C10: presence of a range sample and of a latched reference altitude
is decided by numeric truthiness (control_node.py lines 165, 176, 218):
a raw reading of exactly `0.0` does not fire the hold-reset re-latch and
behaves identically to the absence of any sample (`None`), and a latched
reference altitude of exactly `0.0` makes the vertical-branch guard
false, exactly as `None` does, while any nonzero value is truthy. -/
theorem C10_numeric_truthiness :
    (∀ s : VertState, holdResetStep s (some 0) = s) ∧
    (∀ s : VertState, holdResetStep s (some 0) = holdResetStep s none) ∧
    verticalGuard (some 0) = false ∧
    verticalGuard (some 0) = verticalGuard none ∧
    verticalGuard (some 1) = true ∧
    pyTruthyOpt (some 0) = false ∧
    pyTruthyOpt none = false := by
  have h0 : ∀ s : VertState, holdResetStep s (some 0) = s := by
    intro s
    unfold holdResetStep
    rw [pyTruthyOpt_some_zero, Bool.and_false]
    simp
  have hn : ∀ s : VertState, holdResetStep s none = s := by
    intro s
    unfold holdResetStep
    simp [pyTruthyOpt]
  refine ⟨h0, fun s => by rw [h0 s, hn s], ?_, ?_, ?_, ?_, ?_⟩
  · rw [verticalGuard, pyTruthyOpt_some_zero]
  · rw [verticalGuard, pyTruthyOpt_some_zero]
    rfl
  · rw [verticalGuard, pyTruthyOpt_some_ne (by norm_num : (1 : ℚ) ≠ 0)]
  · exact pyTruthyOpt_some_zero
  · rfl

/- ---------------------------------------------------------------------
   Horizontal filter measurement routing (control_node.py lines 83-84,
   252-257).

   `KFXY.H = [[0,0,1,0],[0,0,0,1]]` and, on a flow sample, the loop
   receives `KFXY_z[0,0], KFXY_z[1,0], OF_TIME = recv()` (dx first, dy
   second) and calls `KFXY.update(KFXY_z*(-altitude))`.  Per the state
   comments in `xy_of_filter_init`, state index 2 is `vx` (pitch/x) and
   state index 3 is `vy` (roll/y).
   --------------------------------------------------------------------- -/

/-- `KFXY.H` from control_node.py lines 83-84. -/
def KFXY_H : Fin 2 → Fin 4 → ℚ := ![![0, 0, 1, 0], ![0, 0, 0, 1]]

/-- The measurement vector passed to `KFXY.update` on a flow sample,
control_node.py line 257: the received `(dx, dy)` scaled elementwise by
`-altitude`. -/
def flow_update_measurement (dx dy altitude : ℚ) : Fin 2 → ℚ :=
  ![dx * (-altitude), dy * (-altitude)]

/-- The measurement vector as the claim describes it: `dx` mapped onto
the y measurement channel (index 1) and `dy` onto the x channel
(index 0). -/
def flow_update_measurement_claimed (dx dy altitude : ℚ) : Fin 2 → ℚ :=
  ![dy * (-altitude), dx * (-altitude)]

/-- C5 (counterexample): the flow sample `(dx=1, dy=0)` at altitude
estimate `-2` produces the measurement `[2, 0]`: value `2` lands on
channel 0 — which `KFXY.H` couples to state 2 (`vx`, the x family) — and
the y channel (index 1, coupled to `vy`) receives `0`, not `2` as the
claimed axis swap would require. -/
theorem C5_flow_dx_updates_x_channel :
    flow_update_measurement 1 0 (-2) 0 = 2 ∧
    flow_update_measurement 1 0 (-2) 1 = 0 ∧
    flow_update_measurement 1 0 (-2) ≠ flow_update_measurement_claimed 1 0 (-2) := by
  refine ⟨by norm_num [flow_update_measurement], by norm_num [flow_update_measurement], ?_⟩
  intro h
  have h1 := congrFun h 1
  norm_num [flow_update_measurement, flow_update_measurement_claimed] at h1

/-- C5 (amended): on every flow sample processed outside TAKEOFF the
update measurement is the flow displacement scaled by the negative of
the current altitude estimate, with the flow's `dx` on measurement
channel 0 — which `KFXY.H` couples to state 2 (`vx`) — and `dy` on
channel 1 — coupled to state 3 (`vy`): there is no axis swap in the
measurement routing. -/
theorem C5_flow_measurement_axes (dx dy altitude : ℚ) (x : Fin 4 → ℚ) :
    flow_update_measurement dx dy altitude 0 = dx * (-altitude) ∧
    flow_update_measurement dx dy altitude 1 = dy * (-altitude) ∧
    (∑ j, KFXY_H 0 j * x j) = x 2 ∧
    (∑ j, KFXY_H 1 j * x j) = x 3 := by
  refine ⟨rfl, rfl, ?_, ?_⟩ <;>
    simp [KFXY_H, Fin.sum_univ_four]

/- ---------------------------------------------------------------------
   Outbound command channel backpressure (control_node.py lines 287-289):
   `if value_available and (not ext_control_pipe_read.poll()):` then
   `ext_control_pipe_write.send(CMDS)` and `value_available = False`.
   --------------------------------------------------------------------- -/

/-- One published actuator command (`CMDS` dict). -/
structure Cmds where
  throttle : ℚ
  roll : ℚ
  pitch : ℚ

/-- The end-of-tick send (control_node.py lines 287-289) acting on the
outbound channel, modelled as the list of commands currently pending
unconsumed: the freshly computed command is enqueued only when the
channel polls empty, otherwise it is discarded. -/
def tickSend (ch : List Cmds) (value_available : Bool) (cmd : Cmds) :
    List Cmds × Bool :=
  if value_available && ch.isEmpty then (ch ++ [cmd], false) else (ch, value_available)

/-- Iterated ticks with the consumer never draining: each tick supplies
its own `value_available` flag and freshly computed command. -/
def runSends (ch : List Cmds) (ticks : List (Bool × Cmds)) : List Cmds :=
  ticks.foldl (fun c t => (tickSend c t.1 t.2).1) ch

lemma tickSend_length {ch : List Cmds} (a : Bool) (c : Cmds)
    (h : ch.length ≤ 1) : ((tickSend ch a c).1).length ≤ 1 := by
  unfold tickSend
  split
  · next hcond =>
    have hch : ch = [] := by
      have := (Bool.and_eq_true _ _).mp hcond
      exact List.isEmpty_iff.mp this.2
    subst hch
    simp
  · exact h

/-- C8: in every reachable state of the tick loop at most one outbound
command is pending unconsumed — starting from a channel holding at most
one command, arbitrarily many successive ticks (with the consumer never
draining) never leave more than one command pending, and on a
backpressured tick (channel nonempty) the freshly computed command is
discarded, leaving the channel unchanged. -/
theorem C8_backpressure_bound (ch : List Cmds) (ticks : List (Bool × Cmds))
    (h : ch.length ≤ 1) :
    (runSends ch ticks).length ≤ 1 ∧
    (∀ avail cmd, ch ≠ [] → (tickSend ch avail cmd).1 = ch) := by
  constructor
  · induction ticks generalizing ch with
    | nil => exact h
    | cons t ts ih =>
      rw [runSends, List.foldl_cons]
      exact ih _ (tickSend_length t.1 t.2 h)
  · intro avail cmd hne
    unfold tickSend
    have : ch.isEmpty = false := by
      cases ch with
      | nil => exact absurd rfl hne
      | cons a l => rfl
    rw [this, Bool.and_false]
    simp

/-- Witness for C8 at the empty channel and three ticks that each try to
publish without the consumer ever draining. -/
theorem C8_backpressure_bound_witness :
    (runSends [] [(true, ⟨0, 0, 0⟩), (true, ⟨1, 1, 1⟩), (true, ⟨2, 2, 2⟩)]).length ≤ 1 ∧
    (∀ avail cmd, ([] : List Cmds) ≠ [] → (tickSend [] avail cmd).1 = []) := by
  exact C8_backpressure_bound [] [(true, ⟨0, 0, 0⟩), (true, ⟨1, 1, 1⟩), (true, ⟨2, 2, 2⟩)]
    (by simp)

/-- C1 (amended): the clamped components of the published command are
within their configured limits — `|value_limit(next_throttle, 150)| ≤
150` for the PID part of the throttle, `|roll| ≤ 100` and `|pitch| ≤ 150`
for the clamps of lines 268-269 — but in HOLD the published throttle is
the clamped PID output *plus* the hover feed-forward term added after
clamping (line 207), so the published throttle itself is not bounded by
150 (see the takeoff counterexample). -/
theorem C1_clamped_fields_within_limits (next_throttle next_roll next_pitch : ℚ) :
    |value_limit next_throttle 150| ≤ 150 ∧
    |roll_clamped next_roll| ≤ 100 ∧
    |pitch_clamped next_pitch| ≤ 150 ∧
    ∀ cancel_gravity_value cosRoll cosPitch,
      hold_throttle next_throttle cancel_gravity_value cosRoll cosPitch =
        value_limit next_throttle 150 + cancel_gravity_value / (cosRoll * cosPitch) :=
  ⟨abs_value_limit _ _ (by norm_num), abs_roll_clamped _, abs_pitch_clamped _,
    fun _ _ _ => rfl⟩

/- ---------------------------------------------------------------------
   Sensor correction feeding the vertical filter update
   (control_node.py lines 209, 232-234).

   On a new range sample with a latched reference altitude:
   `altitude_corrected = altitude_sensor * cos(roll*pi/180) * cos(pitch*pi/180)`
   `offset = 0.05517 * sin(0.81 - roll*pi/180) * cos(pitch*pi/180)`
   `tof_filter.update([truncate(altitude_corrected-offset),
                       truncate(((altitude_corrected-offset)-prev_altitude_sensor)/dt)])`
   while line 209 (run every non-TAKEOFF tick) stores
   `prev_altitude_sensor = altitude_corrected` — without the offset.
   --------------------------------------------------------------------- -/

/-- Python `int(x)` on a real argument: truncation toward zero. -/
noncomputable def pyIntR (x : ℝ) : ℤ :=
  if 0 ≤ x then ⌊x⌋ else ⌈x⌉

/-- `control.truncate` at the default two decimal digits, on reals. -/
noncomputable def truncateR (data : ℝ) : ℝ :=
  ((pyIntR (data * 10 ^ 2) : ℝ)) / 10 ^ 2

/-- `altitude_corrected` from control_node.py line 232; `rollDeg` and
`pitchDeg` are `self.imu[2][0]` and `self.imu[2][1]` in degrees. -/
noncomputable def altitude_corrected (altitude_sensor rollDeg pitchDeg : ℝ) : ℝ :=
  altitude_sensor * Real.cos (rollDeg * Real.pi * 1 / 180) *
    Real.cos (pitchDeg * Real.pi * 1 / 180)

/-- The mounting-offset term from control_node.py line 233. -/
noncomputable def tof_offset (rollDeg pitchDeg : ℝ) : ℝ :=
  0.05517 * Real.sin (0.81 - rollDeg * Real.pi * 1 / 180) *
    Real.cos (pitchDeg * Real.pi * 1 / 180)

/-- The measurement pair handed to `tof_filter.update` on control_node.py
line 234. -/
noncomputable def tof_update_measurement
    (altitude_sensor rollDeg pitchDeg prev_altitude_sensor dt : ℝ) : ℝ × ℝ :=
  (truncateR (altitude_corrected altitude_sensor rollDeg pitchDeg -
      tof_offset rollDeg pitchDeg),
   truncateR ((altitude_corrected altitude_sensor rollDeg pitchDeg -
      tof_offset rollDeg pitchDeg - prev_altitude_sensor) / dt))

/-- The corrected quantity `c` exactly as the claim words it (attitude in
radians): `raw*cos(roll)*cos(pitch) - leverArm*sin(mountAngle - roll)*cos(pitch)`
with `leverArm = 0.05517` and `mountAngle = 0.81`. -/
noncomputable def corrected_claimed (raw roll pitch : ℝ) : ℝ :=
  raw * Real.cos roll * Real.cos pitch -
    0.05517 * Real.sin (0.81 - roll) * Real.cos pitch

/-- C4 (counterexample): what line 209 retains as `prev_altitude_sensor`
is `altitude_corrected` alone; at raw reading `1` and zero roll/pitch this
equals `1`, whereas the claimed `c` (the corrected quantity *with* the
lever-arm offset subtracted) is `1 - 0.05517*sin(0.81) ≠ 1` — so the `p`
used by the next update is not "the same corrected quantity c of the
prior update" as claimed. -/
theorem C4_prev_altitude_missing_offset :
    altitude_corrected 1 0 0 ≠ corrected_claimed 1 0 0 := by
  have hz : (0 : ℝ) * Real.pi * 1 / 180 = 0 := by ring
  have hs : 0 < Real.sin 0.81 :=
    Real.sin_pos_of_pos_of_lt_pi (by norm_num) (by linarith [Real.pi_gt_three])
  unfold altitude_corrected corrected_claimed
  rw [hz]
  simp only [Real.cos_zero, sub_zero, mul_one, one_mul]
  intro h
  nlinarith [hs]

/-- C4 (amended): the measurement vector fed to the vertical filter
update is `[truncate2 c, truncate2 ((c - p)/dt)]` where `c` is exactly
the claimed corrected quantity (with the attitude converted from degrees
to radians) — but `p` is the *previous* `altitude_corrected`, i.e. the
tilt-corrected reading *without* the lever-arm offset term, refreshed by
line 209 on every non-TAKEOFF tick (and reset to the raw reading itself
on a hold-reset), not the full corrected quantity of the prior update. -/
theorem C4_tof_measurement_formula (raw rollDeg pitchDeg prev dt : ℝ) :
    tof_update_measurement raw rollDeg pitchDeg prev dt =
      (truncateR (corrected_claimed raw (rollDeg * Real.pi / 180) (pitchDeg * Real.pi / 180)),
       truncateR ((corrected_claimed raw (rollDeg * Real.pi / 180) (pitchDeg * Real.pi / 180)
          - prev) / dt)) := by
  unfold tof_update_measurement altitude_corrected tof_offset corrected_claimed
  simp only [mul_one]

/- ---------------------------------------------------------------------
   Takeoff ramp and phase transition
   (control_node.py lines 24-27, 160-162, 189-198).

   `TAKEOFF_LIST[t] = 1 - 1/exp(t)` for `t = 0..19`;
   `TAKEOFF_THRUST = int(1015 - 60*battery_voltage)`;
   each tick in TAKEOFF pops the head fraction and commands
   `throttle = fraction * TAKEOFF_THRUST` (unclamped, published since
   `value_available` is set); once the list is empty the next tick sets
   `init_altitude = TAKEOFF_ALTITUDE`, `velocity = 0`, `TAKEOFF = False`
   and falls through to the HOLD PID branch.
   --------------------------------------------------------------------- -/

/-- `self.TAKEOFF_LIST[t] = 1 - 1/np.exp(t)` (control_node.py line 26). -/
noncomputable def TAKEOFF_LIST_frac (t : ℕ) : ℝ :=
  1 - 1 / Real.exp t

/-- The initial 20-entry takeoff list (control_node.py lines 24-27). -/
noncomputable def TAKEOFF_LIST_init : List ℝ :=
  (List.range 20).map TAKEOFF_LIST_frac

/-- `self.TAKEOFF_ALTITUDE = 1` (control_node.py line 22). -/
noncomputable def TAKEOFF_ALTITUDE : ℝ := 1

/-- `TAKEOFF_THRUST = int(1015 - 60*battery_voltage)` (line 162). -/
def TAKEOFF_THRUST_of_voltage (v : ℚ) : ℤ :=
  pyInt (1015 - 60 * v)

/-- The loop state carried across ticks by the takeoff/hold phase logic:
the remaining ramp list, the `TAKEOFF` flag, the vertical reference and
the velocity variable, the commanded throttle, the frozen hover
feed-forward value, and the publish flag. -/
structure LoopState where
  takeoffList : List ℝ
  takeoff : Bool
  init_altitude : ℝ
  velocity : ℝ
  throttle : ℝ
  cancel_gravity_value : ℝ
  value_available : Bool

/-- One tick of the phase logic (control_node.py lines 189-208) under the
claim's scenario: `init_altitude` latched and truthy, a range sample and
constant battery voltage available every tick.  `pidThrottle` abstracts
the whole HOLD throttle computation (external PID plus feed-forward),
which the takeoff claims do not inspect. -/
noncomputable def takeoffTick (thrust : ℤ) (pidThrottle : ℝ) (s : LoopState) : LoopState :=
  if s.takeoff then
    match s.takeoffList with
    | f :: rest =>
        { s with throttle := f * (thrust : ℝ),
                 cancel_gravity_value := f * (thrust : ℝ),
                 value_available := true,
                 takeoffList := rest }
    | [] =>
        { s with init_altitude := TAKEOFF_ALTITUDE,
                 velocity := 0,
                 takeoff := false,
                 throttle := pidThrottle,
                 value_available := true }
  else
    { s with throttle := pidThrottle, value_available := true }

/-- `k` consecutive uninterrupted ticks. -/
noncomputable def takeoffRun (thrust : ℤ) (pid : ℕ → ℝ) (s : LoopState) : ℕ → LoopState
  | 0 => s
  | k + 1 => takeoffTick thrust (pid k) (takeoffRun thrust pid s k)

/-- The state at the start of the takeoff: full ramp list, `TAKEOFF`
still true, a freshly latched (truthy) reference altitude. -/
noncomputable def takeoffStart : LoopState :=
  { takeoffList := TAKEOFF_LIST_init,
    takeoff := true,
    init_altitude := 0.11,
    velocity := 0,
    throttle := -30,
    cancel_gravity_value := 0,
    value_available := false }

lemma takeoffTick_cons (thrust : ℤ) (p : ℝ) (s : LoopState) (f : ℝ) (rest : List ℝ)
    (hto : s.takeoff = true) (hl : s.takeoffList = f :: rest) :
    takeoffTick thrust p s =
      { s with throttle := f * (thrust : ℝ),
               cancel_gravity_value := f * (thrust : ℝ),
               value_available := true,
               takeoffList := rest } := by
  unfold takeoffTick
  rw [hto, hl]
  rfl

lemma takeoffTick_nil (thrust : ℤ) (p : ℝ) (s : LoopState)
    (hto : s.takeoff = true) (hl : s.takeoffList = []) :
    takeoffTick thrust p s =
      { s with init_altitude := TAKEOFF_ALTITUDE,
               velocity := 0,
               takeoff := false,
               throttle := p,
               value_available := true } := by
  unfold takeoffTick
  rw [hto, hl]
  rfl

lemma takeoffTick_not_takeoff (thrust : ℤ) (p : ℝ) (s : LoopState)
    (hto : s.takeoff = false) :
    takeoffTick thrust p s = { s with throttle := p, value_available := true } := by
  unfold takeoffTick
  rw [hto]
  rfl

lemma takeoffRun_ramp (thrust : ℤ) (pid : ℕ → ℝ) (s : LoopState)
    (hlist : s.takeoffList = TAKEOFF_LIST_init) (hto : s.takeoff = true) :
    ∀ k, k ≤ 20 →
      (takeoffRun thrust pid s k).takeoffList =
        (List.range' k (20 - k)).map TAKEOFF_LIST_frac ∧
      (takeoffRun thrust pid s k).takeoff = true := by
  intro k
  induction k with
  | zero =>
    intro _
    refine ⟨?_, hto⟩
    rw [show takeoffRun thrust pid s 0 = s from rfl, hlist]
    unfold TAKEOFF_LIST_init
    rw [List.range_eq_range']
  | succ k ih =>
    intro hk
    have hk20 : k < 20 := hk
    obtain ⟨hl, ht⟩ := ih (Nat.le_of_succ_le hk)
    have hcons : List.range' k (20 - k) = k :: List.range' (k + 1) (20 - (k + 1)) := by
      have h : 20 - k = (20 - (k + 1)) + 1 := by omega
      rw [h, List.range'_succ]
    have hl2 : (takeoffRun thrust pid s k).takeoffList =
        TAKEOFF_LIST_frac k :: (List.range' (k + 1) (20 - (k + 1))).map TAKEOFF_LIST_frac := by
      rw [hl, hcons, List.map_cons]
    rw [show takeoffRun thrust pid s (k + 1) =
          takeoffTick thrust (pid k) (takeoffRun thrust pid s k) from rfl,
        takeoffTick_cons thrust (pid k) _ _ _ ht hl2]
    exact ⟨rfl, ht⟩

lemma takeoffRun_throttle (thrust : ℤ) (pid : ℕ → ℝ) (s : LoopState)
    (hlist : s.takeoffList = TAKEOFF_LIST_init) (hto : s.takeoff = true) :
    ∀ k, k < 20 →
      (takeoffRun thrust pid s (k + 1)).throttle = TAKEOFF_LIST_frac k * (thrust : ℝ) := by
  intro k hk
  obtain ⟨hl, ht⟩ := takeoffRun_ramp thrust pid s hlist hto k (le_of_lt hk)
  have hcons : List.range' k (20 - k) = k :: List.range' (k + 1) (20 - (k + 1)) := by
    have h : 20 - k = (20 - (k + 1)) + 1 := by omega
    rw [h, List.range'_succ]
  have hl2 : (takeoffRun thrust pid s k).takeoffList =
      TAKEOFF_LIST_frac k :: (List.range' (k + 1) (20 - (k + 1))).map TAKEOFF_LIST_frac := by
    rw [hl, hcons, List.map_cons]
  rw [show takeoffRun thrust pid s (k + 1) =
        takeoffTick thrust (pid k) (takeoffRun thrust pid s k) from rfl,
      takeoffTick_cons thrust (pid k) _ _ _ ht hl2]

lemma TAKEOFF_LIST_frac_mono (k : ℕ) :
    TAKEOFF_LIST_frac k ≤ TAKEOFF_LIST_frac (k + 1) := by
  unfold TAKEOFF_LIST_frac
  have h0 : 0 < Real.exp ((k : ℕ) : ℝ) := Real.exp_pos _
  have h1 : Real.exp ((k : ℕ) : ℝ) ≤ Real.exp (((k + 1 : ℕ)) : ℝ) := by
    apply Real.exp_le_exp.mpr
    push_cast
    linarith
  have h2 : 1 / Real.exp (((k + 1 : ℕ)) : ℝ) ≤ 1 / Real.exp ((k : ℕ) : ℝ) :=
    one_div_le_one_div_of_le h0 h1
  linarith

lemma takeoffRun_after (thrust : ℤ) (pid : ℕ → ℝ) (s : LoopState)
    (hlist : s.takeoffList = TAKEOFF_LIST_init) (hto : s.takeoff = true) :
    (takeoffRun thrust pid s 21).init_altitude = TAKEOFF_ALTITUDE ∧
    (takeoffRun thrust pid s 21).velocity = 0 ∧
    ∀ m, (takeoffRun thrust pid s (21 + m)).takeoff = false := by
  obtain ⟨hl, ht⟩ := takeoffRun_ramp thrust pid s hlist hto 20 (le_refl 20)
  have hl20 : (takeoffRun thrust pid s 20).takeoffList = [] := by
    rw [hl]
    rfl
  have h21 : takeoffRun thrust pid s 21 =
      { takeoffRun thrust pid s 20 with
          init_altitude := TAKEOFF_ALTITUDE,
          velocity := 0,
          takeoff := false,
          throttle := pid 20,
          value_available := true } := by
    rw [show takeoffRun thrust pid s 21 =
          takeoffTick thrust (pid 20) (takeoffRun thrust pid s 20) from rfl,
        takeoffTick_nil thrust (pid 20) _ ht hl20]
  refine ⟨by rw [h21], by rw [h21], ?_⟩
  intro m
  induction m with
  | zero => rw [h21]
  | succ m ih =>
    rw [show 21 + (m + 1) = (21 + m) + 1 from rfl,
        show takeoffRun thrust pid s ((21 + m) + 1) =
          takeoffTick thrust (pid (21 + m)) (takeoffRun thrust pid s (21 + m)) from rfl,
        takeoffTick_not_takeoff thrust _ _ ih]
    exact ih

/-- C7: starting from the full 20-entry `1 - e^{-t}` profile with a
nonnegative voltage-compensated thrust constant, each of the 20
uninterrupted ramp ticks commands `fraction * thrust`, the commanded ramp
sequence is non-decreasing, the `TAKEOFF` phase holds through tick 20 and
is left exactly once — on profile exhaustion at tick 21, which sets the
reference altitude to the configured `TAKEOFF_ALTITUDE` and the reference
vertical velocity to zero — and the phase never returns to takeoff
afterwards. -/
theorem C7_takeoff_profile (thrust : ℤ) (pid : ℕ → ℝ) (s : LoopState)
    (hthrust : 0 ≤ thrust) (hlist : s.takeoffList = TAKEOFF_LIST_init)
    (hto : s.takeoff = true) :
    (∀ k, k < 20 →
      (takeoffRun thrust pid s (k + 1)).throttle = TAKEOFF_LIST_frac k * (thrust : ℝ)) ∧
    (∀ k, k + 1 < 20 →
      (takeoffRun thrust pid s (k + 1)).throttle ≤ (takeoffRun thrust pid s (k + 2)).throttle) ∧
    (∀ k, k ≤ 20 → (takeoffRun thrust pid s k).takeoff = true) ∧
    (∀ m, (takeoffRun thrust pid s (21 + m)).takeoff = false) ∧
    (takeoffRun thrust pid s 21).init_altitude = TAKEOFF_ALTITUDE ∧
    (takeoffRun thrust pid s 21).velocity = 0 := by
  obtain ⟨hi, hv, hafter⟩ := takeoffRun_after thrust pid s hlist hto
  refine ⟨takeoffRun_throttle thrust pid s hlist hto, ?_, ?_, hafter, hi, hv⟩
  · intro k hk
    rw [takeoffRun_throttle thrust pid s hlist hto k (by omega),
        takeoffRun_throttle thrust pid s hlist hto (k + 1) hk]
    have hc : (0 : ℝ) ≤ (thrust : ℝ) := by exact_mod_cast hthrust
    exact mul_le_mul_of_nonneg_right (TAKEOFF_LIST_frac_mono k) hc
  · intro k hk
    exact (takeoffRun_ramp thrust pid s hlist hto k hk).2

/-- Witness for C7 at battery voltage `12.35` (thrust constant
`int(1015 - 60*12.35) = 274`), the zero PID abstraction and the initial
takeoff state. -/
theorem C7_takeoff_profile_witness :
    (takeoffRun (TAKEOFF_THRUST_of_voltage (1235 / 100)) (fun _ => 0) takeoffStart 21).takeoff
        = false ∧
    (takeoffRun (TAKEOFF_THRUST_of_voltage (1235 / 100)) (fun _ => 0) takeoffStart 21).init_altitude
        = TAKEOFF_ALTITUDE ∧
    (takeoffRun (TAKEOFF_THRUST_of_voltage (1235 / 100)) (fun _ => 0) takeoffStart 21).velocity
        = 0 := by
  have h := C7_takeoff_profile (TAKEOFF_THRUST_of_voltage (1235 / 100)) (fun _ => 0)
    takeoffStart (by norm_num [TAKEOFF_THRUST_of_voltage, pyInt]) rfl rfl
  exact ⟨h.2.2.2.1 0, h.2.2.2.2.1, h.2.2.2.2.2⟩

/-- C1 (counterexample): with battery voltage `12.35` the thrust constant
is `int(1015 - 741) = 274`, and the second uninterrupted takeoff tick
commands `(1 - e^{-1}) * 274 > 150` with `value_available` set, so the
command published that tick (the outbound channel being empty) carries a
throttle exceeding `ABS_MAX_VALUE_THROTTLE = 150` — refuting the claimed
invariant for the TAKEOFF ramp. -/
theorem C1_takeoff_throttle_exceeds_limit :
    TAKEOFF_THRUST_of_voltage (1235 / 100) = 274 ∧
    (takeoffRun 274 (fun _ => 0) takeoffStart 2).value_available = true ∧
    150 < (takeoffRun 274 (fun _ => 0) takeoffStart 2).throttle := by
  have hl0 : takeoffStart.takeoffList =
      TAKEOFF_LIST_frac 0 :: (List.range' 1 19).map TAKEOFF_LIST_frac := by
    show TAKEOFF_LIST_init = _
    unfold TAKEOFF_LIST_init
    rw [List.range_eq_range', show (20 : ℕ) = 19 + 1 from rfl, List.range'_succ,
        List.map_cons]
  have h1 : takeoffRun 274 (fun _ => 0) takeoffStart 1 =
      { takeoffStart with
          throttle := TAKEOFF_LIST_frac 0 * ((274 : ℤ) : ℝ),
          cancel_gravity_value := TAKEOFF_LIST_frac 0 * ((274 : ℤ) : ℝ),
          value_available := true,
          takeoffList := (List.range' 1 19).map TAKEOFF_LIST_frac } := by
    rw [show takeoffRun 274 (fun _ => 0) takeoffStart 1 =
          takeoffTick 274 0 takeoffStart from rfl,
        takeoffTick_cons 274 0 takeoffStart _ _ rfl hl0]
  have hl1 : (takeoffRun 274 (fun _ => 0) takeoffStart 1).takeoffList =
      TAKEOFF_LIST_frac 1 :: (List.range' 2 18).map TAKEOFF_LIST_frac := by
    rw [h1, show List.range' 1 19 = 1 :: List.range' 2 18 from rfl, List.map_cons]
  have ht1 : (takeoffRun 274 (fun _ => 0) takeoffStart 1).takeoff = true := by
    rw [h1]
    rfl
  have h2 : takeoffRun 274 (fun _ => 0) takeoffStart 2 =
      { takeoffRun 274 (fun _ => 0) takeoffStart 1 with
          throttle := TAKEOFF_LIST_frac 1 * ((274 : ℤ) : ℝ),
          cancel_gravity_value := TAKEOFF_LIST_frac 1 * ((274 : ℤ) : ℝ),
          value_available := true,
          takeoffList := (List.range' 2 18).map TAKEOFF_LIST_frac } := by
    rw [show takeoffRun 274 (fun _ => 0) takeoffStart 2 =
          takeoffTick 274 0 (takeoffRun 274 (fun _ => 0) takeoffStart 1) from rfl,
        takeoffTick_cons 274 0 _ _ _ ht1 hl1]
  refine ⟨by norm_num [TAKEOFF_THRUST_of_voltage, pyInt], by rw [h2], ?_⟩
  rw [h2]
  show (150 : ℝ) < TAKEOFF_LIST_frac 1 * ((274 : ℤ) : ℝ)
  unfold TAKEOFF_LIST_frac
  have he : (2.71828 : ℝ) < Real.exp 1 := by
    have h9 := Real.exp_one_gt_d9
    linarith
  have hinv : 1 / Real.exp ((1 : ℕ) : ℝ) < 1 / 2.71828 := by
    rw [Nat.cast_one]
    exact one_div_lt_one_div_of_lt (by norm_num) he
  have hb : (1 : ℝ) - 1 / 2.71828 < 1 - 1 / Real.exp ((1 : ℕ) : ℝ) := by linarith
  have hc : ((274 : ℤ) : ℝ) = 274 := by norm_num
  rw [hc]
  nlinarith [hb]
